import Mathlib

set_option maxRecDepth 4000

/-!
Verification development for the CQL3 completion/schema module
(`pylib/cqlshlib/cql3handling.py`).  Python strings are modelled as Lean
`String`s, with all operations implemented over the underlying `List Char`
so they are transparent and kernel-computable.  Stateful table decoding is
modelled by explicit state passing; code that can raise returns `Except`.
-/

/-! ## Definitions -/

/-- Python whitespace, as stripped by `str.strip()`: space, tab, newline,
carriage return, vertical tab, form feed. -/
def isPySpace (c : Char) : Bool :=
  c == ' ' || c == '\t' || c == '\n' || c == '\r' ||
  c == Char.ofNat 11 || c == Char.ofNat 12

/-- ASCII letter: what `[a-z]` matches under `re.I` on a Python 2 `str`. -/
def isAsciiAlpha (c : Char) : Bool :=
  ('a' ≤ c && c ≤ 'z') || ('A' ≤ c && c ≤ 'Z')

/-- What `[0-9a-z_]` matches under `re.I`. -/
def isWordChar (c : Char) : Bool :=
  isAsciiAlpha c || ('0' ≤ c && c ≤ '9') || c == '_'

/-- Embeds the tail of `re.match(r'^[a-z][0-9a-z_]*$', s, re.I)` after the
first character: a run of word characters followed by `$`.  Python's `$`
(without `re.M`) matches at the end of the string or just before one
newline at the very end of the string, so a single trailing `'\n'` is
accepted. -/
def tailWordMatches : List Char → Bool
  | [] => true
  | [c] => isWordChar c || c == '\n'
  | c :: rest => isWordChar c && tailWordMatches rest

/-- Embeds `valid_cql3_word_re.match(s) is not None` where
`valid_cql3_word_re = re.compile(r'^[a-z][0-9a-z_]*$', re.I)`. -/
def pyMatchValidWord (l : List Char) : Bool :=
  match l with
  | [] => false
  | c :: rest => isAsciiAlpha c && tailWordMatches rest

/-- The `keywords` set of the source module (all lowercase; membership in
the Python code is an exact, case-sensitive string comparison). -/
def keywordsList : List String :=
  [ "select", "from", "where", "and", "key", "insert", "update", "with",
    "limit", "using", "consistency", "one", "quorum", "all", "any",
    "local_quorum", "each_quorum", "two", "three", "use", "count", "set",
    "begin", "apply", "batch", "truncate", "delete", "in", "create",
    "keyspace", "schema", "columnfamily", "table", "index", "on", "drop",
    "primary", "into", "values", "timestamp", "ttl", "alter", "add", "type",
    "compact", "storage", "order", "by", "asc", "desc" ]

/-- `is_valid_cql3_name`: the word regex matches and the name is not an
exact member of the keyword set. -/
def is_valid_cql3_name (s : String) : Bool :=
  pyMatchValidWord s.data && !(keywordsList.contains s)

/-- Each `'"'` becomes `'""'`: embeds `name.replace('"', '""')`. -/
def doubleQ : List Char → List Char
  | [] => []
  | c :: rest => if c == '"' then '"' :: '"' :: doubleQ rest else c :: doubleQ rest

/-- Left-to-right non-overlapping replacement of `'""'` by `'"'`: embeds
`name.replace('""', '"')`. -/
def collapseQQ : List Char → List Char
  | [] => []
  | [c] => [c]
  | c :: d :: rest =>
    if c == '"' && d == '"' then '"' :: collapseQQ rest
    else c :: collapseQQ (d :: rest)

/-- Embeds Python `str.strip()`: drop leading and trailing whitespace. -/
def pyStripL (l : List Char) : List Char :=
  ((l.dropWhile isPySpace).reverse.dropWhile isPySpace).reverse

/-- `cql3_escape_name`: `'"%s"' % name.replace('"', '""')`. -/
def cql3_escape_name (s : String) : String :=
  ⟨'"' :: (doubleQ s.data ++ ['"'])⟩

/-- `maybe_cql3_escape_name`: leave a valid bare identifier alone,
otherwise quote it. -/
def maybe_cql3_escape_name (s : String) : String :=
  if is_valid_cql3_name s then s else cql3_escape_name s

/-- Character-level body of `cql3_dequote_name`: strip, then if the result
starts with `'"'` take `name[1:-1]` and collapse doubled quotes; otherwise
return the stripped name. -/
def cql3_dequote_chars (l : List Char) : List Char :=
  match pyStripL l with
  | [] => []
  | c :: rest => if c == '"' then collapseQQ rest.dropLast else c :: rest

/-- `cql3_dequote_name`: strip, then if the result starts with `'"'`
take `name[1:-1]` and collapse doubled quotes. -/
def cql3_dequote_name (s : String) : String :=
  ⟨cql3_dequote_chars s.data⟩

/-- A raw row of `system.schema_columns`: column name, validator
descriptor, optional index name. -/
structure ColumnRow where
  column : String
  validator : String
  index_name : Option String
deriving DecidableEq, Repr

/-- A raw layout row of `system.schema_columnfamilies`, restricted to the
fields the decoder reads.  The three structured sub-fields hold their raw
textual encoding; `none` models absence of the attribute. -/
structure LayoutRow where
  columnfamily : String
  key_alias : String
  value_alias : Option String
  key_validator : String
  default_validator : String
  comparator : String
  column_aliases : Option String
  compaction_strategy_options : Option String
  compression_parameters : Option String
deriving DecidableEq, Repr

/-- `CqlColumnDef`: name, normalized type, optional index name.  The name
and type are `Option` because Python 2's two-list `map` pads the shorter
of `key_components`/`subtypes` with `None`. -/
structure CqlColumnDef where
  name : Option String
  cqltype : Option String
  index_name : Option String
deriving DecidableEq, Repr

/-- `CqlColumnDef.from_layout`: build a declared column from its raw row,
carrying its index name. -/
def CqlColumnDef.from_layout (ct : String → String) (r : ColumnRow) :
    CqlColumnDef :=
  ⟨some r.column, some (ct r.validator), r.index_name⟩

/-- Structural-warning diagnostics: one tag per `warn(...)` call site of
`check_assumptions` (the Python messages interpolate values; only the
call site identity matters here). -/
inductive Diag where
  | compactHasColdefs
  | compactNoAliases
  | compositeNoAliases
  | compositeBadTail
  | compositeNoColdefs
  | nonCompositeHasAliases
  | keyComponentMismatch
deriving DecidableEq, Repr

/-- Failures that abort `from_layout` (uncaught Python exceptions):
`ValueError` from `json.loads` on a present-but-malformed field, and
`AttributeError` from using a field absent from the layout row. -/
inductive BuildErr where
  | malformedField (field : String)
  | missingField (field : String)
deriving DecidableEq, Repr

/-- The layout row after JSON decoding of the three structured
sub-fields (`cso`/`cp` are `none` when the attribute was absent). -/
structure DecodedLayout where
  columnfamily : String
  key_alias : String
  value_alias : Option String
  key_validator : String
  default_validator : String
  comparator : String
  column_aliases : List String
  cso : Option (List (String × String))
  cp : Option (List (String × String))
deriving DecidableEq, Repr

/-- The structured table definition.  `key_validator` and
`default_validator` are stored translated, `comparator` raw, exactly as
in the source. -/
structure CqlTableDef where
  name : String
  key_alias : String
  value_alias : Option String
  key_validator : String
  default_validator : String
  comparator : String
  column_aliases : List String
  key_components : List String
  coldefs : List ColumnRow
  compact_storage : Bool
  columns : List CqlColumnDef
  compaction_strategy_options : Option (List (String × String))
  compression_parameters : Option (List (String × String))
deriving DecidableEq, Repr

def compositeTypeName : String := "org.apache.cassandra.db.marshal.CompositeType"

def colnameTypeName : String := "org.apache.cassandra.db.marshal.UTF8Type"

/-- Is `pat` a leading segment of `l`? (embeds `str.startswith`). -/
def leadsWith : List Char → List Char → Bool
  | [], _ => true
  | _ :: _, [] => false
  | p :: ps, c :: cs => p == c && leadsWith ps cs

/-- Embeds `s.startswith(pre)`. -/
def startsWithS (s pre : String) : Bool := leadsWith pre.data s.data

/-- Embeds `s.endswith(suf)`. -/
def endsWithS (s suf : String) : Bool := leadsWith suf.data.reverse s.data.reverse

/-- Embeds Python `str.split(',')`: split at every comma, keeping empty
pieces. -/
def splitCommaL : List Char → List (List Char)
  | [] => [[]]
  | c :: rest =>
    if c == ',' then [] :: splitCommaL rest
    else
      match splitCommaL rest with
      | [] => [[c]]
      | h :: t => (c :: h) :: t

def splitCommaS (s : String) : List String := (splitCommaL s.data).map String.mk

/-- Embeds `s.count(',')`. -/
def countCommas (s : String) : Nat := s.data.count ','

/-- The slice `comparator[len(composite_type_name) + 1:-1]`. -/
def compositeInner (cmp : String) : String :=
  ⟨(cmp.data.drop (compositeTypeName.length + 1)).dropLast⟩

/-- Python 2's two-list `map(f, xs, ys)`: zip both lists to their *longer*
length, padding the shorter one with `None`. -/
def mapPad2 : List String → List String → List (Option String × Option String)
  | [], bs => bs.map (fun b => (none, some b))
  | a :: as, [] => (some a, none) :: mapPad2 as []
  | a :: as, b :: bs => (some a, some b) :: mapPad2 as bs

/-- Decode one structured sub-field: an absent attribute is skipped (the
`except AttributeError: pass` branch), a present field that the decoder
rejects raises (uncaught `ValueError` from `json.loads`).  No diagnostic
is recorded in either case. -/
def decodeField {α : Type} (fieldName : String) (dec : String → Option α) :
    Option String → Except BuildErr (Option α)
  | none => .ok none
  | some raw =>
    match dec raw with
    | some v => .ok (some v)
    | none => .error (.malformedField fieldName)

/-- The JSON-decoding prelude of `CqlTableDef.from_layout`: decode the
three structured sub-fields in `json_attrs` order, then fail with an
`AttributeError` if `column_aliases` never became available (the
`key_components` line reads it unconditionally). -/
def decodeLayout (jsonL : String → Option (List String))
    (jsonM : String → Option (List (String × String)))
    (layout : LayoutRow) : Except BuildErr DecodedLayout :=
  match decodeField "column_aliases" jsonL layout.column_aliases with
  | .error e => .error e
  | .ok caOpt =>
  match decodeField "compaction_strategy_options" jsonM
      layout.compaction_strategy_options with
  | .error e => .error e
  | .ok cso =>
  match decodeField "compression_parameters" jsonM
      layout.compression_parameters with
  | .error e => .error e
  | .ok cp =>
  match caOpt with
  | none => .error (.missingField "column_aliases")
  | some ca =>
    .ok { columnfamily := layout.columnfamily
          key_alias := layout.key_alias
          value_alias := layout.value_alias
          key_validator := layout.key_validator
          default_validator := layout.default_validator
          comparator := layout.comparator
          column_aliases := ca
          cso := cso
          cp := cp }

/-- `CqlTableDef.parse_composite`: decompose the comparator into the
key-typing subtype list, classify the storage shape, and emit the final
column list.  Returns `(compact_storage, columns)`.  The source's nested
conditional (outer `len(column_aliases) > 0`, inner `len(coldefs) > 0`
choosing between `subtypes.pop(-1)` and the compact-storage value column)
is flattened into its two paths: the pop fires exactly when
`aliases > 0 ∧ coldefs > 0`, the compact/value-column path exactly when
`aliases > 0 ∧ coldefs = 0`. -/
def parse_composite (ct : String → String) (d : DecodedLayout)
    (coldefs : List ColumnRow) : Bool × List CqlColumnDef :=
  let subtypes0 : List String :=
    if startsWithS d.comparator (compositeTypeName ++ "(") then
      ct d.key_validator :: (splitCommaS (compositeInner d.comparator)).map ct
    else
      [ct d.key_validator, ct d.comparator]
  let keySubtypes : List String :=
    if d.column_aliases.length > 0 ∧ coldefs.length > 0 then subtypes0.dropLast
    else subtypes0
  let value_cols : List CqlColumnDef :=
    if d.column_aliases.length > 0 ∧ coldefs.length = 0 then
      [⟨d.value_alias, some (ct d.default_validator), none⟩]
    else []
  let compact : Bool :=
    if d.column_aliases.length > 0 ∧ coldefs.length = 0 then true else false
  let keycols :=
    (mapPad2 (d.key_alias :: d.column_aliases) keySubtypes).map
      (fun p => (⟨p.1, p.2, none⟩ : CqlColumnDef))
  (compact, keycols ++ value_cols ++ coldefs.map (CqlColumnDef.from_layout ct))

/-- The expected subtype count used by the final check of
`check_assumptions`: `comparator.count(',') + 1`, plus one for compact
storage. -/
def expectedNumSubtypes (t : CqlTableDef) : Nat :=
  countCommas t.comparator + 1 + (if t.compact_storage then 1 else 0)

/-- The `if`/`elif` shape chain of `check_assumptions`: it emits at most
one warning. -/
def shapeDiags (t : CqlTableDef) : List Diag :=
  if t.value_alias.isSome then
    if t.coldefs.length > 0 then [.compactHasColdefs]
    else if t.column_aliases.length = 0 then [.compactNoAliases]
    else []
  else if startsWithS t.comparator (compositeTypeName ++ "(") then
    if t.column_aliases.length = 0 then [.compositeNoAliases]
    else if !(endsWithS t.comparator (colnameTypeName ++ ")")) then
      [.compositeBadTail]
    else if t.coldefs.length = 0 then [.compositeNoColdefs]
    else []
  else
    if t.column_aliases.length > 0 then [.nonCompositeHasAliases] else []

/-- `CqlTableDef.check_assumptions` as a pure diagnostics list: the shape
chain followed by the independent key-component count check. -/
def check_assumptions (t : CqlTableDef) : List Diag :=
  shapeDiags t ++
    (if t.key_components.length ≠ expectedNumSubtypes t
     then [.keyComponentMismatch] else [])

/-- Assemble the `CqlTableDef` from a decoded layout row (everything
`from_layout` does after the JSON prelude, including `parse_composite`). -/
def buildDecoded (ct : String → String) (d : DecodedLayout)
    (coldefs : List ColumnRow) : CqlTableDef :=
  let pc := parse_composite ct d coldefs
  { name := d.columnfamily
    key_alias := d.key_alias
    value_alias := d.value_alias
    key_validator := ct d.key_validator
    default_validator := ct d.default_validator
    comparator := d.comparator
    column_aliases := d.column_aliases
    key_components := d.key_alias :: d.column_aliases
    coldefs := coldefs
    compact_storage := pc.1
    columns := pc.2
    compaction_strategy_options := d.cso
    compression_parameters := d.cp }

/-- `CqlTableDef.from_layout`: decode the layout row, build the table
definition, and run `check_assumptions`, returning the collected
structural warnings alongside the definition.  Uncaught Python
exceptions surface as `Except.error`. -/
def CqlTableDef.from_layout (ct : String → String)
    (jsonL : String → Option (List String))
    (jsonM : String → Option (List (String × String)))
    (layout : LayoutRow) (coldefs : List ColumnRow) :
    Except BuildErr (CqlTableDef × List Diag) :=
  match decodeLayout jsonL jsonM layout with
  | .error e => .error e
  | .ok d =>
    let t := buildDecoded ct d coldefs
    .ok (t, check_assumptions t)

/-- The comparator named by C2, with the full marshal-class names the
source's `startswith`/`endswith` checks expect. -/
def c2comparator : String :=
  "org.apache.cassandra.db.marshal.CompositeType(org.apache.cassandra.db.marshal.Int32Type,org.apache.cassandra.db.marshal.UTF8Type)"

/-- Embeds Python `str.split()` with no argument: split on whitespace
runs, discarding empty pieces.  The accumulator holds the current word
reversed. -/
def pyWordsAux : List Char → List Char → List (List Char)
  | [], acc => if acc.isEmpty then [] else [acc.reverse]
  | c :: rest, acc =>
    if isPySpace c then
      if acc.isEmpty then pyWordsAux rest [] else acc.reverse :: pyWordsAux rest []
    else pyWordsAux rest (c :: acc)

def pyWords (s : String) : List String := (pyWordsAux s.data []).map String.mk

/-- The shared body of the `USING`-option completers:
`opts = set(universe); for opt in bound: opts.discard(opt.split()[0])`.
The Python set is modelled as the universe list filtered by membership;
`none` models the `IndexError` raised by `opt.split()[0]` when a bound
value has no words. -/
def discardChosen (univ : List String) (bound : List String) :
    Option (List String) :=
  if bound.all (fun b => !(pyWords b).isEmpty) then
    some (univ.filter
      (fun u => !(bound.any (fun b => (pyWords b).head? == some u))))
  else none

/-- `insert_option_completer` (also registered for `updateopt`): offer the
`USING` option keywords not yet chosen in this repeatable binding. -/
def insert_option_completer (insertopt : List String) : Option (List String) :=
  discardChosen ["CONSISTENCY", "TIMESTAMP", "TTL"] insertopt

/-- `delete_opt_completer`: same, over the `DELETE` option keywords. -/
def delete_opt_completer (delopt : List String) : Option (List String) :=
  discardChosen ["CONSISTENCY", "TIMESTAMP"] delopt

/-- Modelled from the spec: a completer registry entry is either a
dynamic completer function or a static display hint
(`make_module_completers` / `explain_completion` live in the missing
`cqlhandling` module). -/
inductive CompleterEntry where
  | dyn (f : List String → Option (List String))
  | hint (text : String)

/-- Modelled from the spec: the resolver surfaces a static hint as
non-insertable guidance in a separate channel, so a hint-only binding
contributes no literal candidates; a dynamic completer contributes the
strings it returns. -/
def literalCandidates (e : CompleterEntry) (bound : List String) :
    List String :=
  match e with
  | .hint _ => []
  | .dyn f => (f bound).getD []

/-- The registration `explain_completion('insertStatement', 'colname')`:
the INSERT column-list binding gets only a static hint, never a dynamic
completer. -/
def insertStatement_colname_entry : CompleterEntry := .hint "<colname>"

/-- `select_source_completer`: dequote the bound keyspace if any, ask the
accessor for the column-family names; if that call raises, return no
candidates when no keyspace was bound, otherwise re-raise. -/
def select_source_completer (dequote escape : String → String)
    (getCF : Option String → Except String (List String))
    (selectks : Option String) : Except String (List String) :=
  let ks := selectks.map dequote
  match getCF ks with
  | .ok cfnames => .ok (cfnames.map escape)
  | .error e =>
    match ks with
    | none => .ok []
    | some _ => .error e

/-- `insert_cf_completer`: identical body over the `insertks` binding. -/
def insert_cf_completer (dequote escape : String → String)
    (getCF : Option String → Except String (List String))
    (insertks : Option String) : Except String (List String) :=
  let ks := insertks.map dequote
  match getCF ks with
  | .ok cfnames => .ok (cfnames.map escape)
  | .error e =>
    match ks with
    | none => .ok []
    | some _ => .error e

/-! ## Theorems -/

theorem dropWhile_eq_self_of (p : Char → Bool) :
    ∀ l : List Char, (∀ x ∈ l, p x = false) → l.dropWhile p = l
  | [] => fun _ => rfl
  | c :: t => fun h => by
      rw [List.dropWhile_cons]
      simp [h c (List.mem_cons_self c t)]

theorem pyStripL_all (l : List Char) (h : ∀ x ∈ l, isPySpace x = false) :
    pyStripL l = l := by
  have h1 : l.dropWhile isPySpace = l := dropWhile_eq_self_of isPySpace l h
  have h2 : l.reverse.dropWhile isPySpace = l.reverse :=
    dropWhile_eq_self_of isPySpace l.reverse
      (fun x hx => h x (List.mem_reverse.mp hx))
  unfold pyStripL
  rw [h1, h2, List.reverse_reverse]

theorem pyStripL_quoted (l : List Char) :
    pyStripL ('"' :: (l ++ ['"'])) = '"' :: (l ++ ['"']) := by
  have hq : isPySpace '"' = false := by decide
  have hrev : ('"' :: (l ++ ['"'])).reverse = '"' :: (l.reverse ++ ['"']) := by
    simp
  have hrev2 : ('"' :: (l.reverse ++ ['"'])).reverse = '"' :: (l ++ ['"']) := by
    simp
  unfold pyStripL
  rw [List.dropWhile_cons, hq]
  simp only [Bool.false_eq_true, if_false]
  rw [hrev, List.dropWhile_cons, hq]
  simp only [Bool.false_eq_true, if_false]
  exact hrev2

theorem word_not_space (c : Char) (h : isWordChar c = true) :
    isPySpace c = false := by
  cases hs : isPySpace c
  · rfl
  · exfalso
    have h6 : c = ' ' ∨ c = '\t' ∨ c = '\n' ∨ c = '\r' ∨
        c = Char.ofNat 11 ∨ c = Char.ofNat 12 := by
      simpa [isPySpace, or_assoc] using hs
    rcases h6 with rfl | rfl | rfl | rfl | rfl | rfl <;> exact absurd h (by decide)

theorem alpha_word (c : Char) (h : isAsciiAlpha c = true) :
    isWordChar c = true := by
  simp [isWordChar, h]

theorem alpha_ne_quote (c : Char) (h : isAsciiAlpha c = true) :
    (c == '"') = false := by
  cases hc : c == '"'
  · rfl
  · exfalso
    have : c = '"' := eq_of_beq hc
    subst this
    exact absurd h (by decide)

theorem tail_all_word : ∀ t : List Char, tailWordMatches t = true →
    t.getLast? ≠ some '\n' → ∀ x ∈ t, isWordChar x = true
  | [] => by intro _ _ x hx; simp at hx
  | [c] => by
      intro hm hl x hx
      simp only [List.mem_singleton] at hx
      subst hx
      unfold tailWordMatches at hm
      simp only [Bool.or_eq_true] at hm
      rcases hm with h | h
      · exact h
      · exfalso
        exact hl (by rw [List.getLast?_singleton, eq_of_beq h])
  | c :: d :: u => by
      intro hm hl x hx
      unfold tailWordMatches at hm
      simp only [Bool.and_eq_true] at hm
      obtain ⟨h1, h2⟩ := hm
      rcases List.mem_cons.mp hx with rfl | hx'
      · exact h1
      · exact tail_all_word (d :: u) h2
          (by rw [List.getLast?_cons_cons] at hl; exact hl) x hx'

theorem doubleQ_length_ge : ∀ l : List Char, l.length ≤ (doubleQ l).length
  | [] => Nat.le_refl _
  | c :: t => by
      have ih := doubleQ_length_ge t
      unfold doubleQ
      by_cases hc : c == '"' <;> simp [hc] <;> omega

theorem doubleQ_eq_nil {l : List Char} (h : doubleQ l = []) : l = [] := by
  cases l with
  | nil => rfl
  | cons c t =>
    exfalso
    unfold doubleQ at h
    by_cases hc : c == '"' <;> simp [hc] at h

theorem collapseQQ_doubleQ : ∀ l : List Char, collapseQQ (doubleQ l) = l := by
  intro l
  induction l with
  | nil => rfl
  | cons c t ih =>
    by_cases hc : c = '"'
    · subst hc
      rw [doubleQ]
      simp only [beq_self_eq_true, if_true]
      rw [collapseQQ]
      simp [ih]
    · have hcb : (c == '"') = false := by simp [hc]
      rw [doubleQ, hcb]
      simp only [Bool.false_eq_true, if_false]
      cases hd : doubleQ t with
      | nil =>
        have ht : t = [] := doubleQ_eq_nil hd
        subst ht
        rfl
      | cons d rest =>
        rw [collapseQQ, hcb]
        simp only [Bool.false_and, Bool.false_eq_true, if_false]
        rw [← hd, ih]

theorem escape_ne (s : String) : cql3_escape_name s ≠ s := by
  intro h
  have hd : ('"' :: (doubleQ s.data ++ ['"'])) = s.data := congrArg String.data h
  have hl := congrArg List.length hd
  rw [List.length_cons, List.length_append, List.length_cons,
    List.length_nil] at hl
  have := doubleQ_length_ge s.data
  omega

theorem dequote_escape (l : List Char) :
    cql3_dequote_chars ('"' :: (doubleQ l ++ ['"'])) = l := by
  unfold cql3_dequote_chars
  rw [pyStripL_quoted]
  simp only [beq_self_eq_true, if_true, List.dropLast_concat]
  exact collapseQQ_doubleQ l

/-- C5 (counterexample).  The claim says every reserved keyword *in any
letter case* is returned wrapped in double quotes.  But the source's
keyword-membership test is an exact, case-sensitive comparison against an
all-lowercase set, so the uppercase keyword `"SELECT"` matches the bare
identifier pattern, is not found in the set, and is returned unchanged
rather than quoted. -/
theorem c5_counterexample :
    maybe_cql3_escape_name "SELECT" = "SELECT" ∧
    keywordsList.contains "select" = true ∧
    maybe_cql3_escape_name "SELECT" ≠ cql3_escape_name "SELECT" := by
  refine ⟨by decide, by decide, ?_⟩
  intro h
  rw [show maybe_cql3_escape_name "SELECT" = "SELECT" from by decide] at h
  exact escape_ne "SELECT" h.symm

/-- C5 (amended).  The name-escaping function returns an identifier
unchanged if and only if `is_valid_cql3_name` holds for it, i.e. it
matches `^[a-z][0-9a-z_]*$` case-insensitively with Python `$` semantics
(which also accept one trailing newline) and is not an exact, lowercase,
case-sensitive member of the reserved keyword set; every other identifier
is returned wrapped in double quotes with internal double quotes
doubled. -/
theorem c5_escape_iff_amended (s : String) :
    (maybe_cql3_escape_name s = s ↔ is_valid_cql3_name s = true) ∧
    (is_valid_cql3_name s = false →
      maybe_cql3_escape_name s = cql3_escape_name s) := by
  refine ⟨⟨?_, ?_⟩, ?_⟩
  · intro h
    by_contra hv
    have hv' : is_valid_cql3_name s = false := by
      cases hval : is_valid_cql3_name s
      · rfl
      · exact absurd hval hv
    rw [maybe_cql3_escape_name, hv'] at h
    simp only [Bool.false_eq_true, if_false] at h
    exact escape_ne s h
  · intro hv
    simp [maybe_cql3_escape_name, hv]
  · intro hv
    simp [maybe_cql3_escape_name, hv]

/-- Witness for C5 (amended): both conjuncts at concrete inputs. -/
theorem c5_escape_iff_amended_witness :
    maybe_cql3_escape_name "abc" = "abc" ∧
    maybe_cql3_escape_name "select" = cql3_escape_name "select" :=
  ⟨(c5_escape_iff_amended "abc").1.mpr (by decide),
   (c5_escape_iff_amended "select").2 (by decide)⟩

/-- C6 (counterexample).  The claim says unescape after escape is the
identity for *every* name.  But `"ab\n"` matches Python's
`^[a-z][0-9a-z_]*$` (the `$` accepts a trailing newline), so escaping
leaves it unchanged, and `cql3_dequote_name` then strips the newline:
the roundtrip returns `"ab"`, not `"ab\n"`. -/
theorem c6_counterexample :
    cql3_dequote_name (maybe_cql3_escape_name "ab\n") = "ab" ∧
    ("ab" : String) ≠ "ab\n" := by
  exact ⟨by decide, by decide⟩

/-- C6 (amended).  The roundtrip `dequote (escape name) = name` holds for
every name except the bare identifiers that carry a trailing newline
(accepted verbatim because of Python's `$` semantics, then mangled by the
`strip()` in `cql3_dequote_name`). -/
theorem c6_roundtrip_amended (s : String)
    (h : ¬(is_valid_cql3_name s = true ∧ s.data.getLast? = some '\n')) :
    cql3_dequote_name (maybe_cql3_escape_name s) = s := by
  by_cases hv : is_valid_cql3_name s = true
  · rw [maybe_cql3_escape_name, if_pos hv]
    have hlast : s.data.getLast? ≠ some '\n' := fun hl => h ⟨hv, hl⟩
    have hm : pyMatchValidWord s.data = true := by
      unfold is_valid_cql3_name at hv
      exact (Bool.and_eq_true _ _ |>.mp hv).1
    obtain ⟨l⟩ := s
    cases l with
    | nil => exact absurd hm (by decide)
    | cons c t =>
      unfold pyMatchValidWord at hm
      simp only [Bool.and_eq_true] at hm
      obtain ⟨hc, ht⟩ := hm
      have htl : t.getLast? ≠ some '\n' := by
        intro hlt
        apply hlast
        cases t with
        | nil => simp at hlt
        | cons d u => rw [show (c :: d :: u : List Char).getLast? =
            (d :: u).getLast? from List.getLast?_cons_cons]; exact hlt
      have hall : ∀ x ∈ t, isWordChar x = true := tail_all_word t ht htl
      have hns : ∀ x ∈ c :: t, isPySpace x = false := by
        intro x hx
        rcases List.mem_cons.mp hx with rfl | hx'
        · exact word_not_space _ (alpha_word _ hc)
        · exact word_not_space _ (hall x hx')
      have hstrip : pyStripL (c :: t) = c :: t := pyStripL_all _ hns
      have hq : (c == '"') = false := alpha_ne_quote c hc
      show String.mk (cql3_dequote_chars (c :: t)) = String.mk (c :: t)
      unfold cql3_dequote_chars
      rw [hstrip]
      simp [hq]
  · rw [maybe_cql3_escape_name, if_neg hv]
    obtain ⟨l⟩ := s
    show String.mk (cql3_dequote_chars ('"' :: (doubleQ l ++ ['"']))) =
      String.mk l
    rw [dequote_escape]

/-- Witness for C6 (amended): the roundtrip at a quoted-path input. -/
theorem c6_roundtrip_amended_witness :
    cql3_dequote_name (maybe_cql3_escape_name "a\"b c") = "a\"b c" :=
  c6_roundtrip_amended "a\"b c" (by decide)

/-- C1 (counterexample).  With key alias `"id"`, an *empty* column-alias
list, value alias `"data"`, default validator `"X"`, a simple comparator
and no column rows, the claim expects columns
`[("id", keyValidatorType), ("data", "X")]`, `compact_storage = true` and
zero diagnostics.  The code's compact branch requires a *non-empty*
column-alias list, so it instead leaves `compact_storage = false`, emits
one `compactNoAliases` warning, and pads the key zip with a `None`-named
column typed by the comparator; no `"data"` column is produced. -/
theorem c1_counterexample :
    CqlTableDef.from_layout id (fun r => if r = "[]" then some [] else none)
      (fun _ => none)
      { columnfamily := "t", key_alias := "id", value_alias := some "data",
        key_validator := "KV", default_validator := "X", comparator := "CompT",
        column_aliases := some "[]", compaction_strategy_options := none,
        compression_parameters := none } [] =
    .ok ({ name := "t", key_alias := "id", value_alias := some "data",
           key_validator := "KV", default_validator := "X",
           comparator := "CompT", column_aliases := [],
           key_components := ["id"], coldefs := [], compact_storage := false,
           columns := [⟨some "id", some "KV", none⟩,
                       ⟨none, some "CompT", none⟩],
           compaction_strategy_options := none,
           compression_parameters := none }, [Diag.compactNoAliases]) := by
  rfl

/-- C1 (amended).  The compact-storage layout of the claim is produced
when the column-alias list is non-empty: with key alias `"id"`, column
aliases `["c1"]`, value alias `"data"`, default-validator `X`, a simple
comma-free comparator `C` and no column rows, `build` yields columns
`[("id", keyValidatorType), ("c1", comparatorType), ("data", X)]`,
`compact_storage = true`, and zero diagnostics. -/
theorem c1_compact_build_amended (ct : String → String)
    (jsonL : String → Option (List String))
    (jsonM : String → Option (List (String × String)))
    (raw : String) (hj : jsonL raw = some ["c1"])
    (cfn K X C : String)
    (hns : startsWithS C (compositeTypeName ++ "(") = false)
    (hcc : countCommas C = 0) :
    CqlTableDef.from_layout ct jsonL jsonM
      { columnfamily := cfn, key_alias := "id", value_alias := some "data",
        key_validator := K, default_validator := X, comparator := C,
        column_aliases := some raw, compaction_strategy_options := none,
        compression_parameters := none } [] =
    .ok ({ name := cfn, key_alias := "id", value_alias := some "data",
           key_validator := ct K, default_validator := ct X, comparator := C,
           column_aliases := ["c1"], key_components := ["id", "c1"],
           coldefs := [], compact_storage := true,
           columns := [⟨some "id", some (ct K), none⟩,
                       ⟨some "c1", some (ct C), none⟩,
                       ⟨some "data", some (ct X), none⟩],
           compaction_strategy_options := none,
           compression_parameters := none }, []) := by
  unfold CqlTableDef.from_layout decodeLayout
  simp only [decodeField, hj]
  unfold buildDecoded parse_composite check_assumptions shapeDiags
    expectedNumSubtypes
  simp [hns, hcc, mapPad2]

/-- Witness for C1 (amended) at concrete inputs. -/
theorem c1_compact_build_amended_witness :
    CqlTableDef.from_layout id (fun _ => some ["c1"]) (fun _ => none)
      { columnfamily := "t", key_alias := "id", value_alias := some "data",
        key_validator := "KV", default_validator := "X", comparator := "CompT",
        column_aliases := some "[\"c1\"]",
        compaction_strategy_options := none,
        compression_parameters := none } [] =
    .ok ({ name := "t", key_alias := "id", value_alias := some "data",
           key_validator := "KV", default_validator := "X",
           comparator := "CompT", column_aliases := ["c1"],
           key_components := ["id", "c1"], coldefs := [],
           compact_storage := true,
           columns := [⟨some "id", some "KV", none⟩,
                       ⟨some "c1", some "CompT", none⟩,
                       ⟨some "data", some "X", none⟩],
           compaction_strategy_options := none,
           compression_parameters := none }, []) :=
  c1_compact_build_amended id (fun _ => some ["c1"]) (fun _ => none)
    "[\"c1\"]" rfl "t" "KV" "X" "CompT" (by decide) (by decide)

/-- C2 (confirmed).  Dynamic composite table: value alias absent,
comparator `CompositeType(Int32Type,UTF8Type)`, key alias `"pk"`, column
aliases `["c1"]`, two declared column rows.  The key components
`["pk","c1"]` are typed `[keyValidatorType, Int32Type]` (the trailing
`UTF8Type` comparator subtype is dropped), `compact_storage = false`, the
two declared columns follow in row order, and no diagnostics are
emitted. -/
theorem c2_dynamic_composite_build (ct : String → String)
    (jsonL : String → Option (List String))
    (jsonM : String → Option (List (String × String)))
    (raw : String) (hj : jsonL raw = some ["c1"])
    (cfn K DV : String) (r1 r2 : ColumnRow) :
    CqlTableDef.from_layout ct jsonL jsonM
      { columnfamily := cfn, key_alias := "pk", value_alias := none,
        key_validator := K, default_validator := DV,
        comparator := c2comparator, column_aliases := some raw,
        compaction_strategy_options := none,
        compression_parameters := none } [r1, r2] =
    .ok ({ name := cfn, key_alias := "pk", value_alias := none,
           key_validator := ct K, default_validator := ct DV,
           comparator := c2comparator, column_aliases := ["c1"],
           key_components := ["pk", "c1"], coldefs := [r1, r2],
           compact_storage := false,
           columns := [⟨some "pk", some (ct K), none⟩,
                       ⟨some "c1",
                        some (ct "org.apache.cassandra.db.marshal.Int32Type"),
                        none⟩,
                       CqlColumnDef.from_layout ct r1,
                       CqlColumnDef.from_layout ct r2],
           compaction_strategy_options := none,
           compression_parameters := none }, []) := by
  have h1 : startsWithS c2comparator (compositeTypeName ++ "(") = true := by
    decide
  have h2 : splitCommaS (compositeInner c2comparator) =
      ["org.apache.cassandra.db.marshal.Int32Type",
       "org.apache.cassandra.db.marshal.UTF8Type"] := by decide
  have h3 : endsWithS c2comparator (colnameTypeName ++ ")") = true := by decide
  have h4 : countCommas c2comparator = 1 := by decide
  unfold CqlTableDef.from_layout decodeLayout
  simp only [decodeField, hj]
  unfold buildDecoded parse_composite check_assumptions shapeDiags
    expectedNumSubtypes
  simp [h1, h2, h3, h4, mapPad2]

/-- Witness for C2 at concrete inputs. -/
theorem c2_dynamic_composite_build_witness :
    CqlTableDef.from_layout id (fun _ => some ["c1"]) (fun _ => none)
      { columnfamily := "t", key_alias := "pk", value_alias := none,
        key_validator := "KV", default_validator := "DV",
        comparator := c2comparator, column_aliases := some "[\"c1\"]",
        compaction_strategy_options := none,
        compression_parameters := none }
      [⟨"d1", "T1", none⟩, ⟨"d2", "T2", some "ix"⟩] =
    .ok ({ name := "t", key_alias := "pk", value_alias := none,
           key_validator := "KV", default_validator := "DV",
           comparator := c2comparator, column_aliases := ["c1"],
           key_components := ["pk", "c1"],
           coldefs := [⟨"d1", "T1", none⟩, ⟨"d2", "T2", some "ix"⟩],
           compact_storage := false,
           columns := [⟨some "pk", some "KV", none⟩,
                       ⟨some "c1",
                        some "org.apache.cassandra.db.marshal.Int32Type",
                        none⟩,
                       ⟨some "d1", some "T1", none⟩,
                       ⟨some "d2", some "T2", some "ix"⟩],
           compaction_strategy_options := none,
           compression_parameters := none }, []) :=
  c2_dynamic_composite_build id (fun _ => some ["c1"]) (fun _ => none)
    "[\"c1\"]" rfl "t" "KV" "DV" ⟨"d1", "T1", none⟩ ⟨"d2", "T2", some "ix"⟩

/-- C3 (counterexample).  Value alias `"v"` present together with one
declared column row: the claim expects the compact-storage layout (key
components plus a synthetic `"v"` column typed by the default validator)
with the declared rows discarded.  The code instead takes the dynamic
branch: it keeps `compact_storage = false`, emits the warning, appends
the declared `"d"` column, and produces no `"v"` column at all. -/
theorem c3_counterexample :
    CqlTableDef.from_layout id
      (fun r => if r = "[\"c1\"]" then some ["c1"] else none) (fun _ => none)
      { columnfamily := "t", key_alias := "k", value_alias := some "v",
        key_validator := "KV", default_validator := "X",
        comparator := c2comparator, column_aliases := some "[\"c1\"]",
        compaction_strategy_options := none,
        compression_parameters := none } [⟨"d", "T", none⟩] =
    .ok ({ name := "t", key_alias := "k", value_alias := some "v",
           key_validator := "KV", default_validator := "X",
           comparator := c2comparator, column_aliases := ["c1"],
           key_components := ["k", "c1"],
           coldefs := [⟨"d", "T", none⟩], compact_storage := false,
           columns := [⟨some "k", some "KV", none⟩,
                       ⟨some "c1",
                        some "org.apache.cassandra.db.marshal.Int32Type",
                        none⟩,
                       ⟨some "d", some "T", none⟩],
           compaction_strategy_options := none,
           compression_parameters := none }, [Diag.compactHasColdefs]) := by
  rfl

/-- C3 (amended).  When the value alias coexists with non-empty declared
column rows, `build` records the `compactHasColdefs` structural warning
but proceeds with the *dynamic* treatment: `compact_storage` stays
`false`, the final columns are the key components (zipped against a
key-typing list) followed by the declared row columns in row order, and
no synthetic value column is produced — the value alias, not the declared
rows, is what gets discarded. -/
theorem c3_value_alias_with_coldefs_amended (ct : String → String)
    (jsonL : String → Option (List String))
    (jsonM : String → Option (List (String × String)))
    (layout : LayoutRow) (coldefs : List ColumnRow) (d : DecodedLayout)
    (hd : decodeLayout jsonL jsonM layout = .ok d)
    (hv : d.value_alias.isSome = true)
    (hc : coldefs ≠ []) :
    ∃ t diags,
      CqlTableDef.from_layout ct jsonL jsonM layout coldefs = .ok (t, diags) ∧
      Diag.compactHasColdefs ∈ diags ∧
      t.compact_storage = false ∧
      ∃ kt : List String,
        t.columns =
          (mapPad2 (d.key_alias :: d.column_aliases) kt).map
            (fun p => (⟨p.1, p.2, none⟩ : CqlColumnDef)) ++
          coldefs.map (CqlColumnDef.from_layout ct) := by
  have hcl : coldefs.length > 0 := List.length_pos.mpr hc
  have hcl0 : ¬(coldefs.length = 0) :=
    fun h => hc (List.length_eq_zero.mp h)
  unfold CqlTableDef.from_layout
  rw [hd]
  refine ⟨_, _, rfl, ?_, ?_, ?_⟩
  · simp [check_assumptions, shapeDiags, buildDecoded, hv, hcl]
  · simp [buildDecoded, parse_composite, hcl0]
  · simp only [buildDecoded, parse_composite, hcl0, and_false, if_false,
      List.append_nil]
    exact ⟨_, rfl⟩

/-- Witness for C3 (amended) at a concrete input. -/
theorem c3_value_alias_with_coldefs_amended_witness :
    ∃ t diags,
      CqlTableDef.from_layout id
        (fun r => if r = "[\"c1\"]" then some ["c1"] else none)
        (fun _ => none)
        { columnfamily := "t", key_alias := "k", value_alias := some "v",
          key_validator := "KV", default_validator := "X",
          comparator := c2comparator, column_aliases := some "[\"c1\"]",
          compaction_strategy_options := none,
          compression_parameters := none } [⟨"d", "T", none⟩] =
        .ok (t, diags) ∧
      Diag.compactHasColdefs ∈ diags ∧
      t.compact_storage = false ∧
      ∃ kt : List String,
        t.columns =
          (mapPad2 ("k" :: ["c1"]) kt).map
            (fun p => (⟨p.1, p.2, none⟩ : CqlColumnDef)) ++
          [(⟨"d", "T", none⟩ : ColumnRow)].map (CqlColumnDef.from_layout id) :=
  c3_value_alias_with_coldefs_amended id
    (fun r => if r = "[\"c1\"]" then some ["c1"] else none) (fun _ => none)
    { columnfamily := "t", key_alias := "k", value_alias := some "v",
      key_validator := "KV", default_validator := "X",
      comparator := c2comparator, column_aliases := some "[\"c1\"]",
      compaction_strategy_options := none, compression_parameters := none }
    [⟨"d", "T", none⟩]
    { columnfamily := "t", key_alias := "k", value_alias := some "v",
      key_validator := "KV", default_validator := "X",
      comparator := c2comparator, column_aliases := ["c1"],
      cso := none, cp := none }
    rfl rfl (by decide)

theorem shapeDiags_no_mismatch (t : CqlTableDef) :
    (shapeDiags t).count Diag.keyComponentMismatch = 0 := by
  unfold shapeDiags
  split_ifs <;> rfl

/-- C4 (confirmed).  Whenever the decoded layout row is available (the
JSON prelude did not raise), `build` returns a table definition, and if
the number of key components differs from the expected subtype count
(comparator comma count plus one, plus one more when compact), the
diagnostics contain exactly one key-component-mismatch structural
warning; the mismatch never aborts the build. -/
theorem c4_key_component_mismatch_warns (ct : String → String)
    (jsonL : String → Option (List String))
    (jsonM : String → Option (List (String × String)))
    (layout : LayoutRow) (coldefs : List ColumnRow) (d : DecodedLayout)
    (hd : decodeLayout jsonL jsonM layout = .ok d) :
    ∃ t diags,
      CqlTableDef.from_layout ct jsonL jsonM layout coldefs = .ok (t, diags) ∧
      (t.key_components.length ≠ expectedNumSubtypes t →
        diags.count Diag.keyComponentMismatch = 1) := by
  unfold CqlTableDef.from_layout
  rw [hd]
  refine ⟨_, _, rfl, ?_⟩
  intro hm
  unfold check_assumptions
  rw [List.count_append, if_pos hm, shapeDiags_no_mismatch]
  rfl

/-- Witness for C4: a single-component key against a two-comma-component
comparator (`"A,B"` counts one comma, hence two expected subtypes). -/
theorem c4_key_component_mismatch_warns_witness :
    ∃ t diags,
      CqlTableDef.from_layout id (fun _ => some []) (fun _ => none)
        { columnfamily := "t", key_alias := "k", value_alias := none,
          key_validator := "KV", default_validator := "DV",
          comparator := "A,B", column_aliases := some "[]",
          compaction_strategy_options := none,
          compression_parameters := none } [] =
        .ok (t, diags) ∧
      (t.key_components.length ≠ expectedNumSubtypes t →
        diags.count Diag.keyComponentMismatch = 1) :=
  c4_key_component_mismatch_warns id (fun _ => some []) (fun _ => none)
    { columnfamily := "t", key_alias := "k", value_alias := none,
      key_validator := "KV", default_validator := "DV",
      comparator := "A,B", column_aliases := some "[]",
      compaction_strategy_options := none, compression_parameters := none }
    []
    { columnfamily := "t", key_alias := "k", value_alias := none,
      key_validator := "KV", default_validator := "DV",
      comparator := "A,B", column_aliases := [], cso := none, cp := none }
    rfl

/-- C9 (counterexample).  A present-but-undecodable `column_aliases`
field makes `build` raise (the `ValueError` from `json.loads` is not
caught), rather than, as the claim states, treating the field as absent,
recording a diagnostic, and returning a table definition. -/
theorem c9_counterexample :
    CqlTableDef.from_layout id (fun _ => none) (fun _ => none)
      { columnfamily := "t", key_alias := "id", value_alias := none,
        key_validator := "KV", default_validator := "DV", comparator := "C",
        column_aliases := some "not json",
        compaction_strategy_options := none,
        compression_parameters := none } [] =
    .error (BuildErr.malformedField "column_aliases") := by
  rfl

/-- C9 (amended).  When any of the three structured sub-fields is
present but fails to decode, `build` aborts with that field's decoding
error and records no diagnostic (`column_aliases`,
`compaction_strategy_options` and `compression_parameters` each abort in
`json_attrs` order, once the fields before them decoded or were absent);
a field that is *absent* from the layout row is silently skipped and the
build proceeds with it unset; and an absent `column_aliases` still
aborts later, when the key components are assembled. -/
theorem c9_malformed_field_amended (ct : String → String)
    (jsonL : String → Option (List String))
    (jsonM : String → Option (List (String × String)))
    (layout : LayoutRow) (coldefs : List ColumnRow) :
    (∀ raw, layout.column_aliases = some raw → jsonL raw = none →
      CqlTableDef.from_layout ct jsonL jsonM layout coldefs =
        .error (BuildErr.malformedField "column_aliases")) ∧
    (∀ ca raw,
      decodeField "column_aliases" jsonL layout.column_aliases = .ok ca →
      layout.compaction_strategy_options = some raw → jsonM raw = none →
      CqlTableDef.from_layout ct jsonL jsonM layout coldefs =
        .error (BuildErr.malformedField "compaction_strategy_options")) ∧
    (∀ ca cso raw,
      decodeField "column_aliases" jsonL layout.column_aliases = .ok ca →
      decodeField "compaction_strategy_options" jsonM
        layout.compaction_strategy_options = .ok cso →
      layout.compression_parameters = some raw → jsonM raw = none →
      CqlTableDef.from_layout ct jsonL jsonM layout coldefs =
        .error (BuildErr.malformedField "compression_parameters")) ∧
    (∀ rawca ca, layout.column_aliases = some rawca → jsonL rawca = some ca →
      layout.compaction_strategy_options = none →
      layout.compression_parameters = none →
      ∃ t, CqlTableDef.from_layout ct jsonL jsonM layout coldefs =
          .ok (t, check_assumptions t) ∧
        t.compaction_strategy_options = none ∧
        t.compression_parameters = none) ∧
    (∀ cso cp, layout.column_aliases = none →
      decodeField "compaction_strategy_options" jsonM
        layout.compaction_strategy_options = .ok cso →
      decodeField "compression_parameters" jsonM
        layout.compression_parameters = .ok cp →
      CqlTableDef.from_layout ct jsonL jsonM layout coldefs =
        .error (BuildErr.missingField "column_aliases")) := by
  refine ⟨?_, ?_, ?_, ?_, ?_⟩
  · intro raw hr hjr
    unfold CqlTableDef.from_layout decodeLayout
    rw [hr]
    simp [decodeField, hjr]
  · intro ca raw h1 hr hjm
    unfold CqlTableDef.from_layout decodeLayout
    rw [h1, hr]
    simp [decodeField, hjm]
  · intro ca cso raw h1 h2 hr hjm
    unfold CqlTableDef.from_layout decodeLayout
    rw [h1, h2, hr]
    simp [decodeField, hjm]
  · intro rawca ca hca hj hcso hcp
    unfold CqlTableDef.from_layout decodeLayout
    rw [hca, hcso, hcp]
    simp only [decodeField, hj]
    exact ⟨_, rfl, rfl, rfl⟩
  · intro cso cp hca h2 h3
    unfold CqlTableDef.from_layout decodeLayout
    rw [hca, h2, h3]
    simp [decodeField]

/-- Witness for C9 (amended): one concrete input per conjunct — each of
the three structured sub-fields malformed in turn, the absent-field skip,
and the absent-`column_aliases` abort. -/
theorem c9_malformed_field_amended_witness :
    CqlTableDef.from_layout id (fun r => if r = "[]" then some [] else none)
      (fun r => if r = "ok" then some [] else none)
      { columnfamily := "t", key_alias := "id", value_alias := none,
        key_validator := "KV", default_validator := "DV", comparator := "C",
        column_aliases := some "bad raw",
        compaction_strategy_options := none,
        compression_parameters := none } [⟨"d", "T", none⟩] =
      .error (BuildErr.malformedField "column_aliases") ∧
    CqlTableDef.from_layout id (fun r => if r = "[]" then some [] else none)
      (fun r => if r = "ok" then some [] else none)
      { columnfamily := "t", key_alias := "id", value_alias := none,
        key_validator := "KV", default_validator := "DV", comparator := "C",
        column_aliases := some "[]",
        compaction_strategy_options := some "bad raw",
        compression_parameters := none } [] =
      .error (BuildErr.malformedField "compaction_strategy_options") ∧
    CqlTableDef.from_layout id (fun r => if r = "[]" then some [] else none)
      (fun r => if r = "ok" then some [] else none)
      { columnfamily := "t", key_alias := "id", value_alias := none,
        key_validator := "KV", default_validator := "DV", comparator := "C",
        column_aliases := some "[]",
        compaction_strategy_options := some "ok",
        compression_parameters := some "bad raw" } [] =
      .error (BuildErr.malformedField "compression_parameters") ∧
    (∃ t, CqlTableDef.from_layout id
        (fun r => if r = "[]" then some [] else none)
        (fun r => if r = "ok" then some [] else none)
        { columnfamily := "t", key_alias := "id", value_alias := none,
          key_validator := "KV", default_validator := "DV", comparator := "C",
          column_aliases := some "[]",
          compaction_strategy_options := none,
          compression_parameters := none } [] =
        .ok (t, check_assumptions t) ∧
      t.compaction_strategy_options = none ∧
      t.compression_parameters = none) ∧
    CqlTableDef.from_layout id (fun r => if r = "[]" then some [] else none)
      (fun r => if r = "ok" then some [] else none)
      { columnfamily := "t", key_alias := "id", value_alias := none,
        key_validator := "KV", default_validator := "DV", comparator := "C",
        column_aliases := none,
        compaction_strategy_options := none,
        compression_parameters := none } [] =
      .error (BuildErr.missingField "column_aliases") :=
  ⟨(c9_malformed_field_amended id
      (fun r => if r = "[]" then some [] else none)
      (fun r => if r = "ok" then some [] else none)
      { columnfamily := "t", key_alias := "id", value_alias := none,
        key_validator := "KV", default_validator := "DV", comparator := "C",
        column_aliases := some "bad raw",
        compaction_strategy_options := none,
        compression_parameters := none } [⟨"d", "T", none⟩]).1
    "bad raw" rfl (by decide),
   (c9_malformed_field_amended id
      (fun r => if r = "[]" then some [] else none)
      (fun r => if r = "ok" then some [] else none)
      { columnfamily := "t", key_alias := "id", value_alias := none,
        key_validator := "KV", default_validator := "DV", comparator := "C",
        column_aliases := some "[]",
        compaction_strategy_options := some "bad raw",
        compression_parameters := none } []).2.1
    (some []) "bad raw" rfl rfl (by decide),
   (c9_malformed_field_amended id
      (fun r => if r = "[]" then some [] else none)
      (fun r => if r = "ok" then some [] else none)
      { columnfamily := "t", key_alias := "id", value_alias := none,
        key_validator := "KV", default_validator := "DV", comparator := "C",
        column_aliases := some "[]",
        compaction_strategy_options := some "ok",
        compression_parameters := some "bad raw" } []).2.2.1
    (some []) (some []) "bad raw" rfl rfl rfl (by decide),
   (c9_malformed_field_amended id
      (fun r => if r = "[]" then some [] else none)
      (fun r => if r = "ok" then some [] else none)
      { columnfamily := "t", key_alias := "id", value_alias := none,
        key_validator := "KV", default_validator := "DV", comparator := "C",
        column_aliases := some "[]",
        compaction_strategy_options := none,
        compression_parameters := none } []).2.2.2.1
    "[]" [] rfl (by decide) rfl rfl,
   (c9_malformed_field_amended id
      (fun r => if r = "[]" then some [] else none)
      (fun r => if r = "ok" then some [] else none)
      { columnfamily := "t", key_alias := "id", value_alias := none,
        key_validator := "KV", default_validator := "DV", comparator := "C",
        column_aliases := none,
        compaction_strategy_options := none,
        compression_parameters := none } []).2.2.2.2
    none none rfl rfl rfl⟩

theorem parse_composite_mem (ct : String → String) (d : DecodedLayout)
    (coldefs : List ColumnRow) (c : CqlColumnDef)
    (hc : c ∈ (parse_composite ct d coldefs).2)
    (hidx : c.index_name ≠ none) :
    ∃ r ∈ coldefs, c = CqlColumnDef.from_layout ct r := by
  simp only [parse_composite, List.mem_append] at hc
  rcases hc with (hk | hv) | hn
  · rcases List.mem_map.mp hk with ⟨p, _, rfl⟩
    exact absurd rfl hidx
  · split_ifs at hv with h
    · simp only [List.mem_singleton] at hv
      subst hv
      exact absurd rfl hidx
    · simp at hv
  · rcases List.mem_map.mp hn with ⟨r, hr, rfl⟩
    exact ⟨r, hr, rfl⟩

/-- C10 (confirmed).  In every table definition `build` produces, each
column carrying an index name comes from a declared column row: the
key-component columns and the synthetic compact-storage value column all
have `index_name = None`. -/
theorem c10_index_only_from_rows (ct : String → String)
    (jsonL : String → Option (List String))
    (jsonM : String → Option (List (String × String)))
    (layout : LayoutRow) (coldefs : List ColumnRow)
    (t : CqlTableDef) (diags : List Diag)
    (h : CqlTableDef.from_layout ct jsonL jsonM layout coldefs =
      .ok (t, diags)) :
    ∀ c ∈ t.columns, c.index_name ≠ none →
      ∃ r ∈ coldefs, c = CqlColumnDef.from_layout ct r := by
  unfold CqlTableDef.from_layout at h
  cases hd : decodeLayout jsonL jsonM layout with
  | error e => rw [hd] at h; cases h
  | ok d =>
    rw [hd] at h
    injection h with h'
    have ht : buildDecoded ct d coldefs = t := congrArg Prod.fst h'
    subst ht
    intro c hc hidx
    have hcols : c ∈ (parse_composite ct d coldefs).2 := hc
    exact parse_composite_mem ct d coldefs c hcols hidx

/-- Witness for C10: the indexed declared column of a concrete build. -/
theorem c10_index_only_from_rows_witness :
    ∃ r ∈ [(⟨"d", "T", some "ix"⟩ : ColumnRow)],
      (⟨some "d", some "T", some "ix"⟩ : CqlColumnDef) =
        CqlColumnDef.from_layout id r :=
  c10_index_only_from_rows id (fun _ => some []) (fun _ => none)
    { columnfamily := "t", key_alias := "k", value_alias := none,
      key_validator := "KV", default_validator := "DV", comparator := "C",
      column_aliases := some "[]",
      compaction_strategy_options := none, compression_parameters := none }
    [⟨"d", "T", some "ix"⟩]
    { name := "t", key_alias := "k", value_alias := none,
      key_validator := "KV", default_validator := "DV", comparator := "C",
      column_aliases := [], key_components := ["k"],
      coldefs := [⟨"d", "T", some "ix"⟩], compact_storage := false,
      columns := [⟨some "k", some "KV", none⟩, ⟨none, some "C", none⟩,
                  ⟨some "d", some "T", some "ix"⟩],
      compaction_strategy_options := none, compression_parameters := none }
    [] rfl
    ⟨some "d", some "T", some "ix"⟩ (by decide) (by decide)

theorem discardChosen_eq (u bound res : List String)
    (h : discardChosen u bound = some res) :
    res = u.filter
      (fun x => !(bound.any (fun b => (pyWords b).head? == some x))) := by
  unfold discardChosen at h
  split_ifs at h
  exact (Option.some.inj h).symm

theorem discardChosen_not_offered (u bound res : List String) (w : String)
    (h : discardChosen u bound = some res)
    (hw : ∃ b ∈ bound, (pyWords b).head? = some w) : w ∉ res := by
  intro hmem
  rw [discardChosen_eq u bound res h] at hmem
  have hp := List.of_mem_filter hmem
  simp only [Bool.not_eq_true'] at hp
  obtain ⟨b, hb, hhead⟩ := hw
  have : bound.any (fun b => (pyWords b).head? == some w) = true :=
    List.any_eq_true.mpr ⟨b, hb, by simp [hhead]⟩
  rw [this] at hp
  cases hp

/-- C7 (confirmed).  The completer for the next item of a repeatable
binding excludes every value already chosen in that binding: the
`USING`-option completers never re-offer an option keyword whose keyword
token already heads a bound option, and the INSERT column-name binding
is registered with a static hint only, so its literal candidate list is
always empty and can never re-offer a bound column name. -/
theorem c7_repeatable_binding_filter (bound res : List String) (w : String) :
    (insert_option_completer bound = some res →
      (∃ b ∈ bound, (pyWords b).head? = some w) → w ∉ res) ∧
    (delete_opt_completer bound = some res →
      (∃ b ∈ bound, (pyWords b).head? = some w) → w ∉ res) ∧
    literalCandidates insertStatement_colname_entry bound = [] := by
  refine ⟨?_, ?_, rfl⟩
  · intro h hw
    exact discardChosen_not_offered _ bound res w h hw
  · intro h hw
    exact discardChosen_not_offered _ bound res w h hw

/-- Witness for C7: with `"TTL 30"` already bound, `"TTL"` is not among
the remaining insert-option candidates. -/
theorem c7_repeatable_binding_filter_witness :
    "TTL" ∉ ["CONSISTENCY", "TIMESTAMP"] :=
  (c7_repeatable_binding_filter ["TTL 30"] ["CONSISTENCY", "TIMESTAMP"] "TTL").1
    (by decide) ⟨"TTL 30", by decide, by decide⟩

/-- C8 (counterexample).  The claim says the table-name completers return
no candidates when the column-family lookup raises, *whether or not* a
keyspace was explicitly bound.  With a keyspace bound, the completer
re-raises instead of returning an empty candidate set. -/
theorem c8_counterexample :
    select_source_completer id id (fun _ => .error "unknown keyspace")
      (some "ks") = .error "unknown keyspace" ∧
    select_source_completer id id (fun _ => .error "unknown keyspace")
      (some "ks") ≠ .ok [] ∧
    insert_cf_completer id id (fun _ => .error "unknown keyspace")
      (some "ks") = .error "unknown keyspace" := by
  refine ⟨rfl, ?_, rfl⟩
  intro h
  cases h

/-- C8 (amended).  When the column-family name lookup raises, the
table-name completers contribute an empty candidate set only if no
keyspace was explicitly bound; when a keyspace was bound, the exception
propagates out of the completer instead. -/
theorem c8_lookup_failure_amended (dequote escape : String → String)
    (getCF : Option String → Except String (List String)) :
    (∀ e, getCF none = .error e →
      select_source_completer dequote escape getCF none = .ok [] ∧
      insert_cf_completer dequote escape getCF none = .ok []) ∧
    (∀ k e, getCF (some (dequote k)) = .error e →
      select_source_completer dequote escape getCF (some k) = .error e ∧
      insert_cf_completer dequote escape getCF (some k) = .error e) := by
  constructor
  · intro e he
    refine ⟨?_, ?_⟩
    · unfold select_source_completer
      simp only [Option.map_none']
      rw [he]
    · unfold insert_cf_completer
      simp only [Option.map_none']
      rw [he]
  · intro k e he
    refine ⟨?_, ?_⟩
    · unfold select_source_completer
      simp only [Option.map_some']
      rw [he]
    · unfold insert_cf_completer
      simp only [Option.map_some']
      rw [he]

/-- Witness for C8 (amended): both branches at concrete accessors. -/
theorem c8_lookup_failure_amended_witness :
    (select_source_completer id id (fun _ => .error "boom") none = .ok [] ∧
      insert_cf_completer id id (fun _ => .error "boom") none = .ok []) ∧
    (select_source_completer id id (fun _ => .error "boom") (some "ks") =
        .error "boom" ∧
      insert_cf_completer id id (fun _ => .error "boom") (some "ks") =
        .error "boom") :=
  ⟨(c8_lookup_failure_amended id id (fun _ => .error "boom")).1 "boom" rfl,
   (c8_lookup_failure_amended id id (fun _ => .error "boom")).2 "ks" "boom" rfl⟩
